import Mathlib

/-!
Verification development for the prost-twirp runtime (src/service_run.rs) and
service generator (src/service_gen.rs).

Shallow embedding conventions:
* Byte bodies (`Vec<u8>`) are modelled as `String` (one `Char` per byte; every
  byte appearing in the claims is ASCII).
* `hyper::HeaderMap` is modelled as an ordered association list with lowercase
  header names, `insert` replacing an existing entry and the builder's
  `header` appending.
* `serde_json::Value` is the inductive `Json`; its object maps keep keys in
  sorted order, mirroring serde_json's `BTreeMap` backing store.
* The serde_json byte codec (`to_vec` / `from_slice`) is an external
  collaborator (spec section 1 places JSON parsing/emission out of scope), so
  `to_json_bytes` / `from_json_bytes` are modelled at the JSON-value level:
  the byte stage is represented by the JSON value it prints to / parses from.
  The concrete textual form used for response bodies and `Content-Length` is
  produced by `Json.print`, which reproduces serde_json's compact output.
* Futures are resolved: a handler is a function to `Except`, and
  `HyperServer.call` returns the resolved `Except` outcome.
-/

namespace ProstTwirp

/-- hyper::Version; `Version::default()` is HTTP/1.1. -/
inductive Version where
  | http09
  | http10
  | http11
  | h2
  | h3
deriving DecidableEq

/-- Version::default() (HTTP/1.1). -/
def Version.default : Version := Version.http11

/-- hyper::HeaderMap modelled as an ordered list of (lowercase name, value). -/
abbrev HeaderMap := List (String × String)

/-- HeaderMap::get: the first value stored under the given name. -/
def headerGet (h : HeaderMap) (k : String) : Option String :=
  List.lookup k h

/-- HeaderMap::insert: replace the value under `k`, or add it at the end. -/
def headerInsert (h : HeaderMap) (k v : String) : HeaderMap :=
  if (List.lookup k h).isSome then
    h.map (fun p => if p.1 = k then (k, v) else p)
  else
    h ++ [(k, v)]

/-- http Builder::header: appends an entry to the header map. -/
def headerAppend (h : HeaderMap) (k v : String) : HeaderMap :=
  h ++ [(k, v)]

/-- http::Uri, reduced to its textual form; `Uri::default()` is `/`. -/
structure Uri where
  text : String
deriving DecidableEq

/-- Uri::default(). -/
def Uri.default : Uri := { text := "/" }

-- serde_json::Value; arrays and object field maps are given their own
-- list types so that recursion over a value stays structural.
mutual
/-- serde_json::Value. -/
inductive Json where
  | null
  | bool (b : Bool)
  | num (n : Int)
  | str (s : String)
  | arr (elems : JsonList)
  | obj (fields : JsonFields)
/-- A JSON array's element list. -/
inductive JsonList where
  | nil
  | cons (hd : Json) (tl : JsonList)
/-- A JSON object's ordered field list. -/
inductive JsonFields where
  | nil
  | cons (key : String) (val : Json) (tl : JsonFields)
end

/-- Map lookup in a JSON object's field list. -/
def JsonFields.lookup : JsonFields → String → Option Json
  | JsonFields.nil, _ => none
  | JsonFields.cons k v tl, key => if k = key then some v else tl.lookup key

/-- Value::get on an object (None on any other value). -/
def Json.getField : Json → String → Option Json
  | Json.obj fields, k => fields.lookup k
  | _, _ => none

/-- Value indexing `json[k]`: the field, or Null when absent or not an object. -/
def Json.index (j : Json) (k : String) : Json :=
  (j.getField k).getD Json.null

/-- Value::as_str. -/
def Json.asStr : Json → Option String
  | Json.str s => some s
  | _ => none

/-- Lexicographic order on character lists, Rust's Ord for str. -/
def charListLt : List Char → List Char → Bool
  | [], [] => false
  | [], _ :: _ => true
  | _ :: _, [] => false
  | a :: as, b :: bs =>
    if a.toNat < b.toNat then true
    else if b.toNat < a.toNat then false
    else charListLt as bs

/-- Lexicographic order on strings, Rust's Ord for String. -/
def strLt (a b : String) : Bool :=
  charListLt a.data b.data

/-- serde_json::Map::insert for the sorted (BTreeMap-backed) object map. -/
def mapInsert (k : String) (v : Json) : JsonFields → JsonFields
  | JsonFields.nil => JsonFields.cons k v JsonFields.nil
  | JsonFields.cons k0 v0 rest =>
    if k = k0 then JsonFields.cons k v rest
    else if strLt k k0 then JsonFields.cons k v (JsonFields.cons k0 v0 rest)
    else JsonFields.cons k0 v0 (mapInsert k v rest)

/-- Lowercase hex digit, as used by serde_json's \u escapes. -/
def hexDigit (n : Nat) : Char :=
  if n < 10 then Char.ofNat (48 + n) else Char.ofNat (87 + n)

/-- serde_json's escaping of a single character inside a JSON string. -/
def escChar (c : Char) : List Char :=
  if c = '"' then ['\\', '"']
  else if c = '\\' then ['\\', '\\']
  else if c = Char.ofNat 8 then ['\\', 'b']
  else if c = Char.ofNat 9 then ['\\', 't']
  else if c = Char.ofNat 10 then ['\\', 'n']
  else if c = Char.ofNat 12 then ['\\', 'f']
  else if c = Char.ofNat 13 then ['\\', 'r']
  else if c.toNat < 32 then
    ['\\', 'u', '0', '0', hexDigit (c.toNat / 16), hexDigit (c.toNat % 16)]
  else [c]

/-- Escape every character of a string for JSON output. -/
def escString (s : String) : String :=
  String.mk (s.data.foldr (fun c acc => escChar c ++ acc) [])

/-- A JSON string literal with quotes and escapes. -/
def printJString (s : String) : String :=
  "\"" ++ escString s ++ "\""

-- Compact printing: serde_json::to_vec's textual output.
mutual
/-- Compact printing of a JSON value: serde_json::to_vec's textual output. -/
def Json.print : Json → String
  | Json.null => "null"
  | Json.bool true => "true"
  | Json.bool false => "false"
  | Json.num n => toString n
  | Json.str s => printJString s
  | Json.arr elems => "[" ++ elems.printItems ++ "]"
  | Json.obj fields => "\x7b" ++ fields.printItems ++ "\x7d"
/-- Comma-separated printing of array elements. -/
def JsonList.printItems : JsonList → String
  | JsonList.nil => ""
  | JsonList.cons j JsonList.nil => j.print
  | JsonList.cons j tl => j.print ++ "," ++ tl.printItems
/-- Comma-separated printing of `"key":value` object fields. -/
def JsonFields.printItems : JsonFields → String
  | JsonFields.nil => ""
  | JsonFields.cons k v JsonFields.nil => printJString k ++ ":" ++ v.print
  | JsonFields.cons k v tl => printJString k ++ ":" ++ v.print ++ "," ++ tl.printItems
end

/-- service_run.rs:26. -/
def JSON_CONTENT_TYPE : String := "application/json"

/-- service_run.rs:27. -/
def PROTOBUF_CONTENT_TYPE : String := "application/protobuf"

/-- A hyper Request<Vec<u8>> (body bytes as String). -/
structure HttpRequest where
  method : String
  uri : Uri
  version : Version
  headers : HeaderMap
  body : String

/-- A hyper Response<Vec<u8>> (body bytes as String). -/
structure HttpResponse where
  status : Nat
  headers : HeaderMap
  body : String

/-- ServiceRequest<T>, service_run.rs:31-46. -/
structure ServiceRequest (T : Type) where
  uri : Uri
  method : String
  version : Version
  headers : HeaderMap
  input : T

/-- ServiceRequest::new, service_run.rs:52-65. -/
def ServiceRequest.new {T : Type} (input : T) : ServiceRequest T :=
  { uri := Uri.default
    method := "POST"
    version := Version.default
    headers := headerInsert [] "content-type" PROTOBUF_CONTENT_TYPE
    input := input }

/-- ServiceRequest::from_hyper_raw, service_run.rs:87-99. -/
def ServiceRequest.from_hyper_raw (req : HttpRequest) : ServiceRequest String :=
  { uri := req.uri
    method := req.method
    version := req.version
    headers := req.headers
    input := req.body }

/-- ServiceResponse<T>, service_run.rs:182-194. -/
structure ServiceResponse (T : Type) where
  version : Version
  headers : HeaderMap
  status : Nat
  output : T

/-- ServiceResponse::new, service_run.rs:200-212 (status 200 OK). -/
def ServiceResponse.new {T : Type} (output : T) : ServiceResponse T :=
  { version := Version.default
    headers := headerInsert [] "content-type" PROTOBUF_CONTENT_TYPE
    status := 200
    output := output }

/-- ServiceResponse::to_hyper_raw, service_run.rs:251-258: the builder's
    headers are cloned from the response and `Content-Length` is appended. -/
def ServiceResponse.to_hyper_raw (v : ServiceResponse String) : HttpResponse :=
  { status := v.status
    headers := headerAppend v.headers "content-length" (toString v.output.length)
    body := v.output }

/-- TwirpError, service_run.rs:329-334 (status as the numeric code). -/
structure TwirpError where
  status : Nat
  error_type : String
  msg : String
  meta : Option Json

/-- TwirpError::new_meta, service_run.rs:343-355. -/
def TwirpError.new_meta (status : Nat) (error_type msg : String) (meta : Option Json) :
    TwirpError :=
  { status := status, error_type := error_type, msg := msg, meta := meta }

/-- TwirpError::new, service_run.rs:338-340. -/
def TwirpError.new (status : Nat) (error_type msg : String) : TwirpError :=
  TwirpError.new_meta status error_type msg none

/-- TwirpError::from_json, service_run.rs:398-411. -/
def TwirpError.from_json (status : Nat) (json : Json) : TwirpError :=
  let error_type := (json.index "error_type").asStr
  { status := status
    error_type := error_type.getD "<no code>"
    msg := ((json.index "msg").asStr).getD "<no message>"
    meta := if error_type.isSome then json.getField "meta" else some json }

/-- TwirpError::to_json, service_run.rs:419-433 (BTreeMap-sorted object). -/
def TwirpError.to_json (e : TwirpError) : Json :=
  let props := mapInsert "error_type" (Json.str e.error_type) JsonFields.nil
  let props := mapInsert "msg" (Json.str e.msg) props
  let props :=
    match e.meta with
    | some meta => mapInsert "meta" meta props
    | none => props
  Json.obj props

/-- TwirpError::to_json_bytes, service_run.rs:436-438. The serde byte stage is
    modelled at the JSON-value level (see the file header); serde_json::to_vec
    of a Value cannot fail, so the result is always ok. -/
def TwirpError.to_json_bytes (e : TwirpError) : Except String Json :=
  Except.ok e.to_json

/-- TwirpError::from_json_bytes, service_run.rs:414-416, likewise at the
    JSON-value level: the input stands for bytes that parse to this value. -/
def TwirpError.from_json_bytes (status : Nat) (json : Json) : Except String TwirpError :=
  Except.ok (TwirpError.from_json status json)

/-- The `unwrap_or_else` fallback used by to_resp_raw / to_hyper_resp,
    service_run.rs:359-361: a failed serialization falls back to "\x7b\x7d",
    a successful one is printed to bytes. -/
def bodyOrFallback : Except String Json → String
  | Except.ok j => j.print
  | Except.error _ => "\x7b\x7d"

/-- TwirpError::to_resp_raw, service_run.rs:358-371. -/
def TwirpError.to_resp_raw (e : TwirpError) : ServiceResponse String :=
  let output := bodyOrFallback e.to_json_bytes
  { version := Version.default
    headers :=
      headerInsert (headerInsert [] "content-type" JSON_CONTENT_TYPE)
        "content-length" (toString output.length)
    status := e.status
    output := output }

/-- TwirpError::to_hyper_resp, service_run.rs:374-383: builder with status,
    then Content-Type and Content-Length appended in that order. -/
def TwirpError.to_hyper_resp (e : TwirpError) : HttpResponse :=
  let body := bodyOrFallback e.to_json_bytes
  { status := e.status
    headers :=
      headerAppend (headerAppend [] "content-type" JSON_CONTENT_TYPE)
        "content-length" (toString body.length)
    body := body }

/-- Opaque payload of serde_json::Error. -/
structure SerdeJsonError where
  text : String

/-- Opaque payload of prost::EncodeError. -/
structure EncodeError where
  text : String

/-- Opaque payload of prost::DecodeError. -/
structure DecodeError where
  text : String

/-- Opaque payload of hyper::Error. -/
structure HyperErr where
  text : String

/-- ProstTwirpError, service_run.rs:457-485. -/
inductive ProstTwirpError where
  | TwirpError (e : ProstTwirp.TwirpError)
  | JsonDecodeError (e : SerdeJsonError)
  | ProstEncodeError (e : EncodeError)
  | ProstDecodeError (e : DecodeError)
  | HyperError (e : HyperErr)
  | InvalidUri (e : String)
  | AfterBodyError (body : String) (method : Option String) (version : Version)
      (headers : HeaderMap) (status : Option Nat) (err : ProstTwirpError)

/-- ProstTwirpError::root_err, service_run.rs:489-494. -/
def ProstTwirpError.root_err : ProstTwirpError → ProstTwirpError
  | ProstTwirpError.AfterBodyError _ _ _ _ _ err => err.root_err
  | e => e

/-- Discriminator for the AfterBodyError variant. -/
def ProstTwirpError.isAfterBodyError : ProstTwirpError → Bool
  | ProstTwirpError.AfterBodyError _ _ _ _ _ _ => true
  | _ => false

/-- Discriminator for the TwirpError variant. -/
def ProstTwirpError.isTwirpError : ProstTwirpError → Bool
  | ProstTwirpError.TwirpError _ => true
  | _ => false

/-- Discriminator for the ProstDecodeError variant. -/
def ProstTwirpError.isProstDecodeError : ProstTwirpError → Bool
  | ProstTwirpError.ProstDecodeError _ => true
  | _ => false

/-- Discriminator for the HyperError variant. -/
def ProstTwirpError.isHyperError : ProstTwirpError → Bool
  | ProstTwirpError.HyperError _ => true
  | _ => false

/-- HyperClient, service_run.rs:513-518 (the held hyper client is external
    state with no bearing on the claims, so only root_url is kept). -/
structure HyperClient where
  root_url : String

/-- str::trim_end_matches('/') as used by HyperClient::new. -/
def trimEndMatchesSlash (s : String) : String :=
  String.mk ((s.data.reverse.dropWhile (fun c => c == '/')).reverse)

/-- str::trim_start_matches('/') as used by HyperClient::go. -/
def trimStartMatchesSlash (s : String) : String :=
  String.mk (s.data.dropWhile (fun c => c == '/'))

/-- HyperClient::new, service_run.rs:522-527. -/
def HyperClient.new (root_url : String) : HyperClient :=
  { root_url := trimEndMatchesSlash root_url }

/-- The URL string formed by HyperClient::go before parsing,
    service_run.rs:536. -/
def HyperClient.go_url (c : HyperClient) (path : String) : String :=
  c.root_url ++ "/" ++ trimStartMatchesSlash path

/-- HyperServer::call, service_run.rs:588-639, the held handler's resolved
    outcome represented by the function `handle`. -/
def HyperServer.call
    (handle : ServiceRequest String → Except ProstTwirpError (ServiceResponse String))
    (req : HttpRequest) : Except HyperErr HttpResponse :=
  if req.method ≠ "POST" then
    Except.ok (TwirpError.new 405 "bad_method" "Method must be POST").to_hyper_resp
  else if ((headerGet req.headers "content-type").map (fun v => v == JSON_CONTENT_TYPE))
      ≠ some true then
    Except.ok
      (TwirpError.new 415 "bad_content_type"
        "Content type must be application/protobuf").to_hyper_resp
  else
    match handle (ServiceRequest.from_hyper_raw req) with
    | Except.ok v => Except.ok v.to_hyper_raw
    | Except.error err =>
      match err.root_err with
      | ProstTwirpError.ProstDecodeError _ =>
        Except.ok (TwirpError.new 400 "protobuf_decode_err" "Invalid protobuf body").to_hyper_resp
      | ProstTwirpError.TwirpError e => Except.ok e.to_hyper_resp
      | ProstTwirpError.HyperError e => Except.error e
      | _ =>
        Except.ok (TwirpError.new 500 "internal_err" "Internal Error").to_hyper_resp

/-- prost_build::Method, the fields used by the generator. -/
structure Method where
  name : String
  proto_name : String
  input_type : String
  output_type : String

/-- prost_build::Service, the fields used by the generator. -/
structure Service where
  name : String
  package : String
  proto_name : String
  methods : List Method

/-- TwirpServiceGenerator, service_gen.rs:12-15. -/
structure TwirpServiceGenerator where
  embed_client : Bool

/-- TwirpServiceGenerator::method_url, service_gen.rs:210-215:
    format!("/twirp/\x7b\x7d/\x7b\x7d.\x7b\x7d", package, proto_name,
    method.proto_name). -/
def TwirpServiceGenerator.method_url (_g : TwirpServiceGenerator)
    (service : Service) (method : Method) : String :=
  "/twirp/" ++ service.package ++ "/" ++ service.proto_name ++ "." ++ method.proto_name

/-! Concrete fixtures used by the theorems. -/

/-- A handler that echoes the raw request body with a fresh 200 response. -/
def okHandler : ServiceRequest String → Except ProstTwirpError (ServiceResponse String) :=
  fun req => Except.ok (ServiceResponse.new req.input)

/-- A handler whose future resolves to the given error. -/
def constErrHandler (e : ProstTwirpError) :
    ServiceRequest String → Except ProstTwirpError (ServiceResponse String) :=
  fun _ => Except.error e

/-- A POST request carrying `Content-Type: application/protobuf`. -/
def postProtobufReq : HttpRequest :=
  { method := "POST"
    uri := Uri.default
    version := Version.default
    headers := [("content-type", "application/protobuf")]
    body := "" }

/-- A POST request carrying `Content-Type: application/json`. -/
def postJsonReq : HttpRequest :=
  { method := "POST"
    uri := Uri.default
    version := Version.default
    headers := [("content-type", "application/json")]
    body := "" }

/-- A GET request to a Twirp-looking path. -/
def getReq : HttpRequest :=
  { method := "GET"
    uri := { text := "/twirp/twitch.twirp.example.Haberdasher/MakeHat" }
    version := Version.default
    headers := [("content-type", "application/protobuf")]
    body := "" }

/-- The MakeHat method descriptor of the repository's examples. -/
def makeHatMethod : Method :=
  { name := "make_hat"
    proto_name := "MakeHat"
    input_type := "Size"
    output_type := "Hat" }

/-- The Haberdasher service descriptor of the repository's examples. -/
def haberdasherService : Service :=
  { name := "Haberdasher"
    package := "twitch.twirp.example"
    proto_name := "Haberdasher"
    methods := [makeHatMethod] }

/-! Claim theorems. -/

/-- C1: the claim says a POST whose Content-Type is application/protobuf is
    forwarded to the handler and any other content type gets 415. Evaluating
    HyperServer::call at the failing input shows the opposite: the guard at
    service_run.rs:598-603 compares the header against JSON_CONTENT_TYPE, so a
    POST with application/protobuf is rejected with 415 (first conjunct) while
    a POST with application/json is forwarded to the handler (second
    conjunct), contradicting the guard's own error message. -/
theorem c1_content_type_guard_requires_json :
    HyperServer.call okHandler postProtobufReq =
      Except.ok (TwirpError.new 415 "bad_content_type"
        "Content type must be application/protobuf").to_hyper_resp
    ∧ HyperServer.call okHandler postJsonReq =
      Except.ok (ServiceResponse.new ("" : String)).to_hyper_raw :=
  ⟨rfl, rfl⟩

/-- C2: the claim says method_url emits "/twirp/" + package + "." + service +
    "/" + method. Evaluating the generator at the repository's own example
    descriptor shows it instead joins package and service with "/" and service
    and method with ".", contradicting the example programs and the Twirp
    protocol the crate documents. -/
theorem c2_method_url_swaps_separators :
    TwirpServiceGenerator.method_url { embed_client := false } haberdasherService makeHatMethod
      = "/twirp/twitch.twirp.example/Haberdasher.MakeHat"
    ∧ TwirpServiceGenerator.method_url { embed_client := false } haberdasherService makeHatMethod
      ≠ "/twirp/twitch.twirp.example.Haberdasher/MakeHat" :=
  ⟨rfl, by decide⟩

/-- C3 counterexample: at a concrete GET request the dispatcher's 405 response
    carries no Allow header at all, so the claim's "header Allow: POST"
    conjunct is false. -/
theorem c3_no_allow_header_counterexample :
    HyperServer.call okHandler getReq =
      Except.ok (TwirpError.new 405 "bad_method" "Method must be POST").to_hyper_resp
    ∧ headerGet (TwirpError.new 405 "bad_method" "Method must be POST").to_hyper_resp.headers
        "allow" = none :=
  ⟨rfl, rfl⟩

/-- C3 (amended): every request whose method is not POST resolves to status
    405 with JSON body \x7b"error_type":"bad_method","msg":"Method must be
    POST"\x7d and Content-Type application/json; no Allow header is set. -/
theorem c3_bad_method_response
    (handle : ServiceRequest String → Except ProstTwirpError (ServiceResponse String))
    (req : HttpRequest) (h : req.method ≠ "POST") :
    HyperServer.call handle req = Except.ok
      { status := 405
        headers := [("content-type", "application/json"), ("content-length", "55")]
        body := "\x7b\"error_type\":\"bad_method\",\"msg\":\"Method must be POST\"\x7d" } := by
  unfold HyperServer.call
  rw [if_pos h]
  rfl

/-- C3 witness: the amended theorem applied to a concrete GET request. -/
theorem c3_bad_method_response_witness :
    HyperServer.call okHandler getReq = Except.ok
      { status := 405
        headers := [("content-type", "application/json"), ("content-length", "55")]
        body := "\x7b\"error_type\":\"bad_method\",\"msg\":\"Method must be POST\"\x7d" } :=
  c3_bad_method_response okHandler getReq (by decide)

/-- C4 counterexample: a handler error whose root is a ProstEncodeError is
    translated to a 500 whose msg is "Internal Error", not the claimed
    "Internal error". -/
theorem c4_internal_error_msg_counterexample :
    HyperServer.call (constErrHandler (ProstTwirpError.ProstEncodeError { text := "enc" }))
        postJsonReq
      = Except.ok (TwirpError.new 500 "internal_err" "Internal Error").to_hyper_resp
    ∧ (TwirpError.new 500 "internal_err" "Internal Error").to_hyper_resp.body
      = "\x7b\"error_type\":\"internal_err\",\"msg\":\"Internal Error\"\x7d"
    ∧ (TwirpError.new 500 "internal_err" "Internal Error").to_hyper_resp.body
      ≠ "\x7b\"error_type\":\"internal_err\",\"msg\":\"Internal error\"\x7d" :=
  ⟨rfl, rfl, by decide⟩

/-- C4 (amended): when a request passes both dispatcher guards and the handler
    resolves to an error, a root ProstDecodeError becomes 400
    protobuf_decode_err "Invalid protobuf body"; a root HyperError is re-raised
    unchanged as the future's error; a root that is neither a TwirpError, a
    ProstDecodeError nor a HyperError becomes 500 internal_err with msg
    "Internal Error". -/
theorem c4_handler_error_translation
    (handle : ServiceRequest String → Except ProstTwirpError (ServiceResponse String))
    (req : HttpRequest) (e : ProstTwirpError)
    (hm : req.method = "POST")
    (hct : (headerGet req.headers "content-type").map (fun v => v == JSON_CONTENT_TYPE)
      = some true)
    (hh : handle (ServiceRequest.from_hyper_raw req) = Except.error e) :
    (∀ d, e.root_err = ProstTwirpError.ProstDecodeError d →
      HyperServer.call handle req =
        Except.ok (TwirpError.new 400 "protobuf_decode_err" "Invalid protobuf body").to_hyper_resp)
    ∧ (∀ h, e.root_err = ProstTwirpError.HyperError h →
      HyperServer.call handle req = Except.error h)
    ∧ (e.root_err.isTwirpError = false → e.root_err.isProstDecodeError = false →
        e.root_err.isHyperError = false →
      HyperServer.call handle req =
        Except.ok (TwirpError.new 500 "internal_err" "Internal Error").to_hyper_resp) := by
  refine ⟨?_, ?_, ?_⟩
  · intro d hd
    simp [HyperServer.call, hm, hct, hh, hd]
  · intro h hyp
    simp [HyperServer.call, hm, hct, hh, hyp]
  · intro h1 h2 h3
    cases hr : e.root_err <;>
      simp_all [HyperServer.call, hm, hct, hh, ProstTwirpError.isTwirpError,
        ProstTwirpError.isProstDecodeError, ProstTwirpError.isHyperError]

/-- C4 witness: the amended translation applied at concrete requests and
    handler outcomes for each of the three cases. -/
theorem c4_handler_error_translation_witness :
    HyperServer.call (constErrHandler (ProstTwirpError.ProstDecodeError { text := "bad" }))
        postJsonReq
      = Except.ok (TwirpError.new 400 "protobuf_decode_err" "Invalid protobuf body").to_hyper_resp
    ∧ HyperServer.call (constErrHandler (ProstTwirpError.HyperError { text := "io" }))
        postJsonReq
      = Except.error { text := "io" }
    ∧ HyperServer.call (constErrHandler (ProstTwirpError.InvalidUri "oops")) postJsonReq
      = Except.ok (TwirpError.new 500 "internal_err" "Internal Error").to_hyper_resp :=
  ⟨(c4_handler_error_translation
      (constErrHandler (ProstTwirpError.ProstDecodeError { text := "bad" })) postJsonReq
      (ProstTwirpError.ProstDecodeError { text := "bad" }) rfl rfl rfl).1 _ rfl,
   (c4_handler_error_translation
      (constErrHandler (ProstTwirpError.HyperError { text := "io" })) postJsonReq
      (ProstTwirpError.HyperError { text := "io" }) rfl rfl rfl).2.1 _ rfl,
   (c4_handler_error_translation
      (constErrHandler (ProstTwirpError.InvalidUri "oops")) postJsonReq
      (ProstTwirpError.InvalidUri "oops") rfl rfl rfl).2.2 rfl rfl rfl⟩

/-- C5: root_err never returns an AfterBodyError, it is idempotent, and on a
    non-AfterBodyError input it is the identity. -/
theorem c5_root_err_canonical (e : ProstTwirpError) :
    e.root_err.isAfterBodyError = false
    ∧ e.root_err.root_err = e.root_err
    ∧ (e.isAfterBodyError = false → e.root_err = e) := by
  induction e with
  | TwirpError e => exact ⟨rfl, rfl, fun _ => rfl⟩
  | JsonDecodeError e => exact ⟨rfl, rfl, fun _ => rfl⟩
  | ProstEncodeError e => exact ⟨rfl, rfl, fun _ => rfl⟩
  | ProstDecodeError e => exact ⟨rfl, rfl, fun _ => rfl⟩
  | HyperError e => exact ⟨rfl, rfl, fun _ => rfl⟩
  | InvalidUri e => exact ⟨rfl, rfl, fun _ => rfl⟩
  | AfterBodyError body m v hd st err ih =>
    refine ⟨?_, ?_, ?_⟩
    · simpa [ProstTwirpError.root_err] using ih.1
    · simpa [ProstTwirpError.root_err] using ih.2.1
    · intro hc
      simp [ProstTwirpError.isAfterBodyError] at hc

/-- C5 witness: the identity clause applied at a concrete non-AfterBodyError
    input. -/
theorem c5_root_err_canonical_witness :
    ProstTwirpError.root_err (ProstTwirpError.InvalidUri "bad uri")
      = ProstTwirpError.InvalidUri "bad uri" :=
  (c5_root_err_canonical (ProstTwirpError.InvalidUri "bad uri")).2.2 rfl

/-- C6: TwirpError::from_json is lenient: the status is taken from the
    argument; with no string error_type the code becomes "<no code>" and meta
    is the whole original object; with a string error_type the meta is the
    meta subfield when present and empty otherwise; a missing msg becomes
    "<no message>". -/
theorem c6_from_json_lenient (s : Nat) (fields : JsonFields) :
    (TwirpError.from_json s (Json.obj fields)).status = s
    ∧ (((Json.obj fields).index "error_type").asStr = none →
        (TwirpError.from_json s (Json.obj fields)).error_type = "<no code>"
        ∧ (TwirpError.from_json s (Json.obj fields)).meta = some (Json.obj fields))
    ∧ (∀ t, ((Json.obj fields).index "error_type").asStr = some t →
        (TwirpError.from_json s (Json.obj fields)).error_type = t
        ∧ (TwirpError.from_json s (Json.obj fields)).meta = (Json.obj fields).getField "meta")
    ∧ (((Json.obj fields).index "msg").asStr = none →
        (TwirpError.from_json s (Json.obj fields)).msg = "<no message>") := by
  refine ⟨rfl, ?_, ?_, ?_⟩
  · intro h
    constructor <;> simp [TwirpError.from_json, h]
  · intro t h
    constructor <;> simp [TwirpError.from_json, h]
  · intro h
    simp [TwirpError.from_json, h]

/-- C6 witness: decoding an object with no error_type yields "<no code>" with
    the whole object as meta, and one with a string error_type keeps it and
    takes meta from the meta subfield. -/
theorem c6_from_json_lenient_witness :
    ((TwirpError.from_json 400 (Json.obj (JsonFields.cons "msg" (Json.str "hi")
        JsonFields.nil))).error_type = "<no code>"
    ∧ (TwirpError.from_json 400 (Json.obj (JsonFields.cons "msg" (Json.str "hi")
        JsonFields.nil))).meta
      = some (Json.obj (JsonFields.cons "msg" (Json.str "hi") JsonFields.nil)))
    ∧ ((TwirpError.from_json 400 (Json.obj (JsonFields.cons "error_type" (Json.str "too_small")
        JsonFields.nil))).error_type = "too_small"
    ∧ (TwirpError.from_json 400 (Json.obj (JsonFields.cons "error_type" (Json.str "too_small")
        JsonFields.nil))).meta
      = (Json.obj (JsonFields.cons "error_type" (Json.str "too_small") JsonFields.nil)).getField
          "meta") :=
  ⟨(c6_from_json_lenient 400 _).2.1 rfl, (c6_from_json_lenient 400 _).2.2.1 "too_small" rfl⟩

/-- C7: serializing a TwirpError and decoding the result with any status
    round-trips the error_type, msg and meta fields and installs the given
    status (the serde byte stage, external to the crate, is modelled at the
    JSON-value level). -/
theorem c7_twirp_error_json_roundtrip (e : TwirpError) (s : Nat) :
    e.to_json_bytes = Except.ok e.to_json
    ∧ TwirpError.from_json_bytes s e.to_json = Except.ok { e with status := s } := by
  refine ⟨rfl, ?_⟩
  cases e with
  | mk st et m meta =>
    cases meta with
    | none => rfl
    | some mv => rfl

/-- C8: ServiceRequest::new yields method POST, the default version, exactly
    the Content-Type application/protobuf header, the default URI and the
    given input; ServiceResponse::new yields status 200 with the same
    Content-Type header. -/
theorem c8_new_envelope_invariants {T U : Type} (m : T) (r : U) :
    (ServiceRequest.new m).method = "POST"
    ∧ (ServiceRequest.new m).version = Version.default
    ∧ (ServiceRequest.new m).headers = [("content-type", PROTOBUF_CONTENT_TYPE)]
    ∧ (ServiceRequest.new m).uri = Uri.default
    ∧ (ServiceRequest.new m).input = m
    ∧ (ServiceResponse.new r).status = 200
    ∧ (ServiceResponse.new r).headers = [("content-type", PROTOBUF_CONTENT_TYPE)]
    ∧ (ServiceResponse.new r).version = Version.default :=
  ⟨rfl, rfl, rfl, rfl, rfl, rfl, rfl, rfl⟩

/-- Trailing-slash trimming is unaffected by appending one more slash. -/
theorem trimEnd_append_slash (r : String) :
    trimEndMatchesSlash (r ++ "/") = trimEndMatchesSlash r := by
  cases r with
  | mk data =>
    show String.mk (((data ++ ['/']).reverse.dropWhile (fun c => c == '/')).reverse)
      = String.mk ((data.reverse.dropWhile (fun c => c == '/')).reverse)
    rw [List.reverse_append]
    simp [List.dropWhile]

/-- C9: HyperClient::new strips trailing slashes from the root URL, go forms
    root + "/" + path-with-leading-slashes-stripped, and roots differing only
    in a trailing slash produce identical outgoing URLs for every path. -/
theorem c9_url_normalization (r p : String) :
    (HyperClient.new r).root_url = trimEndMatchesSlash r
    ∧ (HyperClient.new r).go_url p
      = trimEndMatchesSlash r ++ "/" ++ trimStartMatchesSlash p
    ∧ (HyperClient.new (r ++ "/")).go_url p = (HyperClient.new r).go_url p
    ∧ (HyperClient.new "http://x").go_url p = (HyperClient.new "http://x/").go_url p := by
  refine ⟨rfl, rfl, ?_, ?_⟩
  · show trimEndMatchesSlash (r ++ "/") ++ "/" ++ trimStartMatchesSlash p
      = trimEndMatchesSlash r ++ "/" ++ trimStartMatchesSlash p
    rw [trimEnd_append_slash]
  · show trimEndMatchesSlash "http://x" ++ "/" ++ trimStartMatchesSlash p
      = trimEndMatchesSlash "http://x/" ++ "/" ++ trimStartMatchesSlash p
    have hx : trimEndMatchesSlash "http://x/" = trimEndMatchesSlash "http://x" := by decide
    rw [hx]

/-- C10: converting a TwirpError to a response never fails: to_resp_raw and
    to_hyper_resp always carry the error's status, Content-Type
    application/json and a Content-Length equal to the body length, and a
    failed JSON serialization would fall back to the literal body "\x7b\x7d". -/
theorem c10_error_response_never_fails (e : TwirpError) :
    e.to_resp_raw.status = e.status
    ∧ headerGet e.to_resp_raw.headers "content-type" = some JSON_CONTENT_TYPE
    ∧ headerGet e.to_resp_raw.headers "content-length"
      = some (toString e.to_resp_raw.output.length)
    ∧ e.to_hyper_resp.status = e.status
    ∧ headerGet e.to_hyper_resp.headers "content-type" = some JSON_CONTENT_TYPE
    ∧ headerGet e.to_hyper_resp.headers "content-length"
      = some (toString e.to_hyper_resp.body.length)
    ∧ (∀ failure, bodyOrFallback (Except.error failure) = "\x7b\x7d") :=
  ⟨rfl, rfl, rfl, rfl, rfl, rfl, fun _ => rfl⟩

end ProstTwirp
